import Mathlib

/-!
Verification of the libkeypad scan engine (a Rust matrix-keypad driver).

This file gives a shallow embedding of the driver's three source files:

* `src/layout.rs` — the static 2x4x3 key layout and the `Symbol` type;
* `src/keypad.rs` — the `Keypad` driver: lock gating (`is_locked`), the
  per-key edge/latch logic, and the `scan` loop (drive-line tables `ROWS`
  and `COLS`, priming sequence, per-line transactions);
* `src/lib.rs` — the C-facing handle (`Keypad { driver: Option<_> }`,
  `keypad_get_lock`, the `Lock` enum with discriminants 0/1/2).

Machine bytes are modelled as `Nat` (with explicit `% 256` where u8
wrap-around matters).  Rust array indexing, which panics out of bounds,
is modelled with `List.get?`: a `none` lookup is an index panic.  The
hardware bus is modelled by a read script `Nat → Option Nat` (the byte
returned by the n-th input-register transaction, `none` = bus error) and
the concurrently written stop flag by a schedule `Nat → Bool` (the value
observed by the n-th atomic load).  Callback invocations are modelled as
events in the emitted trace.
-/

namespace Libkeypad

/-- Lock is the tri-state lock policy from `src/lib.rs`
(`#[repr(C)] enum Lock { Locked = 0, Unlocked = 1, UnlockedPowerOnly = 2 }`). -/
inductive Lock where
  | Locked
  | Unlocked
  | UnlockedPowerOnly
  deriving DecidableEq, Repr

/-- Lock.code is the C discriminant of each `Lock` value (`repr(C)` in
`src/lib.rs`). -/
def Lock.code : Lock → Nat
  | Lock.Locked => 0
  | Lock.Unlocked => 1
  | Lock.UnlockedPowerOnly => 2

/-- Symbol is the one-byte key code from `src/layout.rs`
(`pub struct Symbol(u8)`); the byte is modelled as a `Nat`. -/
structure Symbol where
  chr : Nat
  deriving DecidableEq, Repr

/-- Symbol.is_power mirrors `Symbol::is_power` in `src/layout.rs`:
the designated power key is `b'J'` (ASCII 74). -/
def Symbol.is_power (s : Symbol) : Bool :=
  s.chr == 74

/-- LAYOUT is the static key table of `src/layout.rs`, bytes written as
their ASCII codes.  Pad 0 is `A`..`L` row-major; pad 1 is `1`..`9`,
`*`, `0`, `#`. -/
def LAYOUT : List (List (List Nat)) :=
  [ [ [65, 66, 67],
      [68, 69, 70],
      [71, 72, 73],
      [74, 75, 76] ],
    [ [49, 50, 51],
      [52, 53, 54],
      [55, 56, 57],
      [42, 48, 35] ] ]

/-- translate mirrors `translate` in `src/layout.rs`
(`Symbol(LAYOUT[pad][row][column])`).  Rust indexing panics out of
bounds; here an out-of-bounds lookup is `none`. -/
def translate (pad row column : Nat) : Option Symbol :=
  match LAYOUT.get? pad with
  | none => none
  | some padTable =>
    match padTable.get? row with
    | none => none
    | some rowTable =>
      match rowTable.get? column with
      | none => none
      | some b => some (Symbol.mk b)

/-- is_locked mirrors `Keypad::is_locked` in `src/keypad.rs`: the Rust
match has an `Unlocked => false` arm, an `UnlockedPowerOnly if
chr.is_power() => false` guarded arm, and a wildcard `=> true`; the
guard is rendered as an `if`, and the wildcard covers `Locked` and the
non-power `UnlockedPowerOnly` case. -/
def is_locked (lock : Lock) (chr : Symbol) : Bool :=
  match lock with
  | Lock.Unlocked => false
  | Lock.UnlockedPowerOnly => if chr.is_power then false else true
  | Lock.Locked => true

/-- ROWS is the fixed drive-line table of `src/keypad.rs`: the n-th
physical drive line is mapped to the `(pad, row)` pair `ROWS[n]`. -/
def ROWS : List (Nat × Nat) :=
  [(1, 1), (1, 4), (1, 3), (2, 2), (2, 1), (2, 4), (2, 3), (1, 2)]

/-- COLS is the fixed column table of `src/keypad.rs`: the i-th extracted
input bit is stored at column index `COLS[i]`. -/
def COLS : List Nat :=
  [2, 1, 3]

/-- Ev is one observable action of the driver: a register write
(`write_reg`), a sleep, the write-then-read input transaction, an atomic
load of the stop flag, or an invocation of the press/release callback
slot with a symbol. -/
inductive Ev where
  | wreg (addr val : Nat)
  | sleepMs (ms : Nat)
  | xfer (addr val : Nat)
  | stopCheck (b : Bool)
  | press (s : Symbol)
  | release (s : Symbol)
  deriving DecidableEq, Repr

/-- keyStep is the per-key body of the scan loop's transition match
(`src/keypad.rs` lines 118-136), for one key whose translated symbol is
`chr`: `(false, true)` latches and fires the press callback only if the
lock gate does not block the symbol; `(true, false)` always latches
false and fires the release callback; the wildcard arm does nothing.
It returns the new latch value and the emitted events. -/
def keyStep (lock : Lock) (chr : Symbol) (latched pressed : Bool) :
    Bool × List Ev :=
  match latched, pressed with
  | false, true =>
    if is_locked lock chr then (false, []) else (true, [Ev.press chr])
  | true, false => (false, [Ev.release chr])
  | _, _ => (latched, [])

/-- keyTrace iterates `keyStep` for one key over a schedule of scan
cycles, each cycle supplying the lock value loaded at that cycle and the
physically-pressed reading for the key, and concatenates the emitted
events. -/
def keyTrace (chr : Symbol) : Bool → List (Lock × Bool) → List Ev
  | _, [] => []
  | latched, (lock, pressed) :: rest =>
    let s := keyStep lock chr latched pressed
    s.2 ++ keyTrace chr s.1 rest

/-- Reg is the register-selection enum of `src/keypad.rs` with its
discriminants (the chip is in BANK=1 addressing mode). -/
inductive Reg where
  | DirA
  | DirB
  | OutA
  | OutB
  | PupA
  | PupB
  | InpA
  | InpB
  deriving DecidableEq, Repr

/-- Reg.addr gives each register's address byte, exactly the enum
discriminants of `src/keypad.rs`. -/
def Reg.addr : Reg → Nat
  | Reg.DirA => 0x00
  | Reg.DirB => 0x10
  | Reg.OutA => 0x0A
  | Reg.OutB => 0x1A
  | Reg.PupA => 0x06
  | Reg.PupB => 0x16
  | Reg.InpA => 0x09
  | Reg.InpB => 0x19

/-- ScanErr is a Rust index panic raised by the scan loop: `index i len`
is the panic of indexing a `len`-element array at `i`, and
`layout pad row col` is the panic inside `translate`'s `LAYOUT`
indexing. -/
inductive ScanErr where
  | index (i len : Nat)
  | layout (pad row col : Nat)
  deriving DecidableEq, Repr

/-- StepRes is the result of a fallible step: normal value, Rust panic,
or a propagated bus error (the `?` operator on a failed transaction). -/
inductive StepRes (α : Type) where
  | ok (a : α)
  | panicked (e : ScanErr)
  | busErr
  deriving DecidableEq, Repr

/-- Outcome is how a whole `scan()` call ends: `ok` models `Ok(())`,
`panicked` a Rust index panic, `busErr` an `Err` from a failed bus
transaction, and `spin` means the modelling fuel ran out with the loop
still running. -/
inductive Outcome where
  | ok
  | panicked (e : ScanErr)
  | busErr
  | spin
  deriving DecidableEq, Repr

/-- Matrix is the `[[[bool; 3]; 4]; 2]` key-state latch matrix. -/
abbrev Matrix := List (List (List Bool))

/-- matrixInit is `Default::default()` for the matrix: all entries
false. -/
def matrixInit : Matrix :=
  List.replicate 2 (List.replicate 4 (List.replicate 3 false))

/-- colsLoop is the inner column loop of `Keypad::scan`
(`for (i, &pressed) in input.iter().enumerate()`): for each input bit
`i` it indexes `COLS[i]`, reads `columns[idx]` (the match scrutinee,
panicking when `idx` is out of bounds), and runs the transition match.
In the press arm `translate` runs before the lock check, as in the
source; callback invocations become `press`/`release` events.  It
returns the emitted events together with the final column latches or
the panic. -/
def colsLoop (lock : Lock) (pad row : Nat) :
    List Bool → Nat → List Bool → List Ev × StepRes (List Bool)
  | columns, _, [] => ([], StepRes.ok columns)
  | columns, i, pressed :: rest =>
    match COLS.get? i with
    | none => ([], StepRes.panicked (ScanErr.index i COLS.length))
    | some idx =>
      match columns.get? idx with
      | none => ([], StepRes.panicked (ScanErr.index idx columns.length))
      | some old =>
        match old, pressed with
        | false, true =>
          match translate pad row idx with
          | none => ([], StepRes.panicked (ScanErr.layout pad row idx))
          | some chr =>
            if is_locked lock chr then
              colsLoop lock pad row columns (i + 1) rest
            else
              let r := colsLoop lock pad row (columns.set idx true) (i + 1) rest
              (Ev.press chr :: r.1, r.2)
        | true, false =>
          let columns2 := columns.set idx false
          match translate pad row idx with
          | none => ([], StepRes.panicked (ScanErr.layout pad row idx))
          | some chr =>
            let r := colsLoop lock pad row columns2 (i + 1) rest
            (Ev.release chr :: r.1, r.2)
        | _, _ => colsLoop lock pad row columns (i + 1) rest

/-- lineStep is one drive-line iteration of the scan loop's `for` body:
drive line `scanrow` (mask `!(1u8 << scanrow)` on port B direction and
output), settle 5 ms, run the input transaction on `InpA`, extract the
three (inverted) column bits, index `matrix[pad][row]` (panicking out
of bounds), run the column loop, write the columns back, and re-charge
(OutB/OutA high, DirA output for 1 ms, DirA back to input).  `readv` is
the byte the bus transaction returns, `none` being a bus error. -/
def lineStep (lock : Lock) (matrix : Matrix) (scanrow pad row : Nat)
    (readv : Option Nat) : List Ev × StepRes Matrix :=
  let m := 255 - ((1 <<< scanrow) % 256)
  let pre := [Ev.wreg Reg.DirB.addr m, Ev.wreg Reg.OutB.addr m, Ev.sleepMs 5]
  match readv with
  | none => (pre, StepRes.busErr)
  | some byte =>
    let evs := pre ++ [Ev.xfer Reg.InpA.addr byte]
    let input := [!byte.testBit 1, !byte.testBit 4, !byte.testBit 7]
    match matrix.get? pad with
    | none => (evs, StepRes.panicked (ScanErr.index pad matrix.length))
    | some padRows =>
      match padRows.get? row with
      | none => (evs, StepRes.panicked (ScanErr.index row padRows.length))
      | some columns =>
        let r := colsLoop lock pad row columns 0 input
        match r.2 with
        | StepRes.ok columns2 =>
          let matrix2 := matrix.set pad (padRows.set row columns2)
          let recharge :=
            [Ev.wreg Reg.OutB.addr 0xFF, Ev.wreg Reg.OutA.addr 0xFF,
             Ev.wreg Reg.DirA.addr 0x00, Ev.sleepMs 1,
             Ev.wreg Reg.DirA.addr 0xFF]
          (evs ++ r.1 ++ recharge, StepRes.ok matrix2)
        | StepRes.panicked e => (evs ++ r.1, StepRes.panicked e)
        | StepRes.busErr => (evs ++ r.1, StepRes.busErr)

/-- passLoop is the `for (scanrow, (pad, row)) in ROWS.iter().enumerate()`
loop: one `lineStep` per remaining drive line, threading the matrix and
the bus-read counter, aborting on panic or bus error.  It contains no
stop-flag check.  It returns the events, the next read counter, and the
final matrix or the abort. -/
def passLoop (lock : Lock) (readF : Nat → Option Nat) :
    Matrix → Nat → Nat → List (Nat × Nat) → List Ev × Nat × StepRes Matrix
  | matrix, _, ridx, [] => ([], ridx, StepRes.ok matrix)
  | matrix, scanrow, ridx, (pad, row) :: rest =>
    let r := lineStep lock matrix scanrow pad row (readF ridx)
    match r.2 with
    | StepRes.ok matrix2 =>
      let r2 := passLoop lock readF matrix2 (scanrow + 1) (ridx + 1) rest
      (r.1 ++ r2.1, r2.2.1, r2.2.2)
    | StepRes.panicked e => (r.1, ridx + 1, StepRes.panicked e)
    | StepRes.busErr => (r.1, ridx + 1, StepRes.busErr)

/-- scanLoop is the `while !self.stop.load(..)` loop: each iteration
first loads the stop flag (the `cidx`-th load observes `stopF cidx`);
a true load exits the loop and `scan` returns `Ok`, otherwise one full
pass over `ROWS` runs.  `fuel` bounds the number of iterations modelled
(`spin` when exhausted). -/
def scanLoop (lock : Lock) (stopF : Nat → Bool) (readF : Nat → Option Nat) :
    Nat → Matrix → Nat → Nat → List Ev × Outcome
  | 0, _, _, _ => ([], Outcome.spin)
  | fuel + 1, matrix, cidx, ridx =>
    if stopF cidx then ([Ev.stopCheck true], Outcome.ok)
    else
      let r := passLoop lock readF matrix 0 ridx ROWS
      match r.2.2 with
      | StepRes.ok matrix2 =>
        let r2 := scanLoop lock stopF readF fuel matrix2 (cidx + 1) r.2.1
        (Ev.stopCheck false :: r.1 ++ r2.1, r2.2)
      | StepRes.panicked e => (Ev.stopCheck false :: r.1, Outcome.panicked e)
      | StepRes.busErr => (Ev.stopCheck false :: r.1, Outcome.busErr)

/-- primingEvs is the pre-charge sequence run once at the start of every
`scan()` call (`src/keypad.rs` lines 84-91): port B direction all-input,
port A direction all-output, port A output all-high, hold 10 ms, port A
direction back to all-input, port A pull-ups all on. -/
def primingEvs : List Ev :=
  [Ev.wreg Reg.DirB.addr 0xFF, Ev.wreg Reg.DirA.addr 0x00,
   Ev.wreg Reg.OutA.addr 0xFF, Ev.sleepMs 10,
   Ev.wreg Reg.DirA.addr 0xFF, Ev.wreg Reg.PupA.addr 0xFF]

/-- scan models `Keypad::scan`: a freshly zeroed matrix is allocated,
the priming sequence runs, then the stop-checked pass loop.  `lock` is
the lock state loaded during the call (no concurrent `set_lock` is
modelled), `stopF` the schedule of stop-flag loads, `readF` the bus
read script, `fuel` the iteration bound. -/
def scan (lock : Lock) (stopF : Nat → Bool) (readF : Nat → Option Nat)
    (fuel : Nat) : List Ev × Outcome :=
  let r := scanLoop lock stopF readF fuel matrixInit 0 0
  (primingEvs ++ r.1, r.2)

/-- countChecks counts the stop-flag loads recorded in a trace. -/
def countChecks (evs : List Ev) : Nat :=
  evs.countP fun e =>
    match e with
    | Ev.stopCheck _ => true
    | _ => false

/-- domainSymbols lists `translate` applied to all 24 in-range
`(pad, row, column)` triples, in lexicographic order. -/
def domainSymbols : List (Option Symbol) :=
  (List.range 2).flatMap fun pad =>
    (List.range 4).flatMap fun row =>
      (List.range 3).map fun col => translate pad row col

lemma countChecks_press (s : Symbol) (l : List Ev) :
    countChecks (Ev.press s :: l) = countChecks l := by
  simp [countChecks, List.countP_cons]

lemma countChecks_release (s : Symbol) (l : List Ev) :
    countChecks (Ev.release s :: l) = countChecks l := by
  simp [countChecks, List.countP_cons]

lemma countChecks_append (a b : List Ev) :
    countChecks (a ++ b) = countChecks a + countChecks b := by
  simp [countChecks, List.countP_append]

lemma countChecks_colsLoop (lock : Lock) (pad row : Nat) :
    ∀ (input columns : List Bool) (i : Nat),
      countChecks (colsLoop lock pad row columns i input).1 = 0 := by
  intro input
  induction input with
  | nil => intro columns i; rfl
  | cons p rest ih =>
    intro columns i
    simp only [colsLoop]
    split
    · rfl
    · split
      · rfl
      · split
        · split
          · rfl
          · split
            · exact ih columns (i + 1)
            · rw [countChecks_press]
              exact ih (columns.set _ true) (i + 1)
        · split
          · rfl
          · rw [countChecks_release]
            exact ih (columns.set _ false) (i + 1)
        · exact ih columns (i + 1)

lemma countChecks_lineStep (lock : Lock) (matrix : Matrix) (scanrow pad row : Nat)
    (readv : Option Nat) :
    countChecks (lineStep lock matrix scanrow pad row readv).1 = 0 := by
  cases readv with
  | none => rfl
  | some byte =>
    have h0 := countChecks_colsLoop lock pad row
      [!byte.testBit 1, !byte.testBit 4, !byte.testBit 7]
    simp only [lineStep]
    split
    · rfl
    · split
      · rfl
      · split
        · rw [countChecks_append, countChecks_append, countChecks_append, h0]
          rfl
        · rw [countChecks_append, countChecks_append, h0]
          rfl
        · rw [countChecks_append, countChecks_append, h0]
          rfl

lemma countChecks_passLoop (lock : Lock) (readF : Nat → Option Nat) :
    ∀ (rows : List (Nat × Nat)) (matrix : Matrix) (scanrow ridx : Nat),
      countChecks (passLoop lock readF matrix scanrow ridx rows).1 = 0 := by
  intro rows
  induction rows with
  | nil => intro matrix scanrow ridx; rfl
  | cons pr rest ih =>
    intro matrix scanrow ridx
    obtain ⟨pad, row⟩ := pr
    simp only [passLoop]
    split
    · rw [countChecks_append, countChecks_lineStep, ih]
    · exact countChecks_lineStep lock matrix scanrow pad row (readF ridx)
    · exact countChecks_lineStep lock matrix scanrow pad row (readF ridx)

lemma keyTrace_blocked (chr : Symbol) (lock : Lock) (h : is_locked lock chr = true) :
    ∀ (n : Nat) (rest : List (Lock × Bool)),
      keyTrace chr false (List.replicate n (lock, true) ++ rest)
        = keyTrace chr false rest := by
  intro n
  induction n with
  | zero => intro rest; rfl
  | succ k ih =>
    intro rest
    rw [List.replicate_succ, List.cons_append]
    simp only [keyTrace, keyStep, h, if_true]
    exact ih rest

lemma keyTrace_held (chr : Symbol) :
    ∀ (n : Nat) (rest : List (Lock × Bool)),
      keyTrace chr true (List.replicate n (Lock.Unlocked, true) ++ rest)
        = keyTrace chr true rest := by
  intro n
  induction n with
  | zero => intro rest; rfl
  | succ k ih =>
    intro rest
    rw [List.replicate_succ, List.cons_append]
    show keyTrace chr true (List.replicate k (Lock.Unlocked, true) ++ rest) = _
    exact ih rest

lemma keyTrace_idle (chr : Symbol) (lockv : Lock) :
    ∀ (n : Nat) (rest : List (Lock × Bool)),
      keyTrace chr false (List.replicate n (lockv, false) ++ rest)
        = keyTrace chr false rest := by
  intro n
  induction n with
  | zero => intro rest; rfl
  | succ k ih =>
    intro rest
    rw [List.replicate_succ, List.cons_append]
    show keyTrace chr false (List.replicate k (lockv, false) ++ rest) = _
    exact ih rest

/-- Keypad is the driver struct of `src/keypad.rs` restricted to its
pure policy state: `lock_state` (the atomic lock cell) and `stop` (the
stored stop flag).  The bus handle lives in the read script and the
callback slots are modelled as trace events, so neither is a field
here; the key-state matrix is not a field in the source either (it is a
local of `scan`). -/
structure Keypad where
  lock_state : Lock
  stop : Bool
  deriving DecidableEq, Repr

/-- Keypad.get_lock mirrors `Keypad::get_lock`: an atomic load of the
lock cell. -/
def Keypad.get_lock (kp : Keypad) : Lock :=
  kp.lock_state

/-- Keypad.set_lock mirrors `Keypad::set_lock`: an atomic store to the
lock cell. -/
def Keypad.set_lock (kp : Keypad) (lock : Lock) : Keypad :=
  Keypad.mk lock kp.stop

/-- openInitWrites is the fixed MCP23017 initialization sequence of
`Keypad::open`, as raw `(address, value)` byte pairs: IOCON BANK=1
twice, then zero OLATA, then zero INTCONB. -/
def openInitWrites : List (Nat × Nat) :=
  [(0x05, 0x80), (0x0A, 0x80), (0x0A, 0x00), (0x12, 0x00)]

/-- Keypad.open' models `Keypad::open` (`open` is a Lean keyword):
`devOk` says whether `LinuxI2CDevice::new` succeeds and `writeOk k`
whether the k-th initialization write succeeds; any failure propagates
as an error (the `?` operator).  On success the driver state starts
with `stop = false` and `lock_state = Unlocked`, and the performed
initialization writes are returned alongside. -/
def Keypad.open' (devOk : Bool) (writeOk : Nat → Bool) :
    Except Unit (Keypad × List (Nat × Nat)) :=
  if devOk then
    if writeOk 0 then
      if writeOk 1 then
        if writeOk 2 then
          if writeOk 3 then
            Except.ok (Keypad.mk Lock.Unlocked false, openInitWrites)
          else Except.error ()
        else Except.error ()
      else Except.error ()
    else Except.error ()
  else Except.error ()

/-- KeypadHandle is the C-facing wrapper struct of `src/lib.rs`
(`pub struct Keypad { driver: Option<KeypadDriver> }`; renamed here
because the driver struct already takes the name `Keypad`). -/
structure KeypadHandle where
  driver : Option Keypad

/-- keypad_get_lock mirrors `keypad_get_lock` in `src/lib.rs`: the
driver's lock state when initialized, otherwise `Lock::Locked`. -/
def keypad_get_lock (kp : KeypadHandle) : Lock :=
  match kp.driver with
  | some drv => drv.get_lock
  | none => Lock.Locked

/-- C4: for every symbol `s`, `is_locked Locked s = true`,
`is_locked UnlockedPowerOnly s` is true exactly when `s` is not the
designated power symbol, and `is_locked Unlocked s = false`. -/
theorem is_locked_blocking (s : Symbol) :
    is_locked Lock.Locked s = true
    ∧ is_locked Lock.UnlockedPowerOnly s = !s.is_power
    ∧ is_locked Lock.Unlocked s = false := by
  refine ⟨rfl, ?_, rfl⟩
  cases h : s.is_power <;> simp [is_locked, h]

/-- C5: `translate` is total on the 24-element domain (every in-range
triple yields `some` symbol), injective there (the 24 results are
pairwise distinct), and its image is exactly the 24 symbols
`{A..L} ∪ {1..9, *, 0, #}` (given by ASCII code). -/
theorem translate_total_injective_image :
    (domainSymbols.all fun o => o.isSome) = true
    ∧ domainSymbols.Nodup
    ∧ List.Perm (domainSymbols.filterMap (Option.map Symbol.chr))
        [65, 66, 67, 68, 69, 70, 71, 72, 73, 74, 75, 76,
         49, 50, 51, 52, 53, 54, 55, 56, 57, 42, 48, 35] := by
  refine ⟨by decide, by decide, by decide⟩

/-- C1 (code bug): the drive-line and column tables are 1-based while
the 2x4x3 matrix and `LAYOUT` are 0-indexed, so the scan loop indexes
out of bounds and panics.  Concretely, with the stop flag clear and
every read returning 0xFF (no key pressed), `scan` aborts during its
very first drive line with the Rust panic of indexing the 3-element
column array at `COLS[2] = 3`; moreover `ROWS` contains `(1, 4)` (row 4
of a 4-row pad) and `(2, 2)` (pad 2 of a 2-pad matrix), and `translate`
also panics at those coordinates (`LAYOUT` lookup out of bounds). -/
theorem scan_index_out_of_bounds :
    (scan Lock.Unlocked (fun _ => false) (fun _ => some 0xFF) 1).2
      = Outcome.panicked (ScanErr.index 3 3)
    ∧ ROWS.get? 1 = some (1, 4) ∧ ROWS.get? 3 = some (2, 2)
    ∧ COLS.get? 2 = some 3
    ∧ matrixInit.length = 2
    ∧ translate 1 4 0 = none ∧ translate 2 2 0 = none := by
  refine ⟨by decide, by decide, by decide, by decide, by decide, by decide, by decide⟩

/-- C2: a not-pressed-to-pressed transition evaluated while the lock
gate blocks the key's symbol leaves the latch false and fires nothing;
a pressed-to-not-pressed transition always latches false and fires the
release callback whatever the lock state; and over a schedule of scan
cycles in which the key is held for `n` cycles under a blocking lock
value, then the lock becomes `Unlocked` while the key stays held for
`1 + m` more cycles, then the key is released under an arbitrary lock
value, exactly one press event fires (on the first unlocked cycle) and
exactly one release event fires. -/
theorem lock_gate_press_release (chr : Symbol) (lock lock2 : Lock) (n m : Nat)
    (hblock : is_locked lock chr = true) :
    keyStep lock chr false true = (false, [])
    ∧ keyStep lock2 chr true false = (false, [Ev.release chr])
    ∧ keyTrace chr false
        (List.replicate n (lock, true)
          ++ (Lock.Unlocked, true)
            :: (List.replicate m (Lock.Unlocked, true) ++ [(lock2, false)]))
      = [Ev.press chr, Ev.release chr] := by
  refine ⟨by simp [keyStep, hblock], rfl, ?_⟩
  rw [keyTrace_blocked chr lock hblock]
  show Ev.press chr
      :: keyTrace chr true (List.replicate m (Lock.Unlocked, true) ++ [(lock2, false)]) = _
  rw [keyTrace_held]
  rfl

/-- Witness for C2 at the concrete key `A` (ASCII 65), blocked by
`Locked` for two cycles, then unlocked and held one extra cycle, then
released under `Locked`. -/
theorem lock_gate_press_release_witness :
    is_locked Lock.Locked (Symbol.mk 65) = true
    ∧ (keyStep Lock.Locked (Symbol.mk 65) false true = (false, [])
      ∧ keyStep Lock.Locked (Symbol.mk 65) true false
          = (false, [Ev.release (Symbol.mk 65)])
      ∧ keyTrace (Symbol.mk 65) false
          (List.replicate 2 (Lock.Locked, true)
            ++ (Lock.Unlocked, true)
              :: (List.replicate 1 (Lock.Unlocked, true) ++ [(Lock.Locked, false)]))
        = [Ev.press (Symbol.mk 65), Ev.release (Symbol.mk 65)]) :=
  ⟨by decide,
   lock_gate_press_release (Symbol.mk 65) Lock.Locked Lock.Locked 2 1 (by decide)⟩

/-- C3: dispatch is edge-triggered.  With the gate not blocking
(`Unlocked`), a key reported pressed for `n + 1` consecutive cycles and
then not pressed for `m + 1` consecutive cycles produces exactly one
press event followed by exactly one release event; and an evaluation in
which the read equals the latched state produces no event and leaves
the latch unchanged. -/
theorem edge_triggered_dispatch (chr : Symbol) (lock : Lock) (n m : Nat) (b : Bool) :
    keyTrace chr false
        (List.replicate (n + 1) (Lock.Unlocked, true)
          ++ List.replicate (m + 1) (Lock.Unlocked, false))
      = [Ev.press chr, Ev.release chr]
    ∧ keyStep lock chr b b = (b, []) := by
  constructor
  · rw [List.replicate_succ, List.cons_append]
    show Ev.press chr
        :: keyTrace chr true
            (List.replicate n (Lock.Unlocked, true)
              ++ List.replicate (m + 1) (Lock.Unlocked, false)) = _
    rw [keyTrace_held, List.replicate_succ]
    show Ev.press chr :: Ev.release chr
        :: keyTrace chr false (List.replicate m (Lock.Unlocked, false)) = _
    have h := keyTrace_idle chr Lock.Unlocked m []
    rw [List.append_nil] at h
    rw [h]
    rfl
  · cases b <;> rfl

/-- C6 counterexample: the claim says the stop flag is checked once per
drive-line iteration and that observing it set makes `scan` return
`Ok`.  Take the stop schedule whose loads read false once and then true
forever, with all reads 0xFF: were the flag checked between consecutive
single-line scans, the check after the first line would observe true
and `scan` would return `Ok`.  Instead the code checks the flag only at
the top of a full 8-line pass: this run performs exactly one stop-flag
load in total and never returns `Ok` (the pass aborts in the C1 index
panic before any further check). -/
theorem stop_check_granularity_cex :
    (scan Lock.Unlocked (fun n => decide (1 ≤ n)) (fun _ => some 0xFF) 4).2
      ≠ Outcome.ok
    ∧ countChecks (scan Lock.Unlocked (fun n => decide (1 ≤ n)) (fun _ => some 0xFF) 4).1 = 1
    ∧ (fun n => decide (1 ≤ n)) 1 = true := by
  refine ⟨by decide, by decide, by decide⟩

/-- C6 amended: the stop flag is checked once per full 8-line pass —
only at the top of the `while` loop, never between single-line scans
(the pass body emits no stop-flag load at all) — and when a check
observes the flag set the loop exits and `scan` returns `Ok`
immediately. -/
theorem stop_checked_once_per_pass
    (lock : Lock) (stopF : Nat → Bool) (readF : Nat → Option Nat)
    (matrix : Matrix) (scanrow ridx fuel : Nat) (rows : List (Nat × Nat))
    (hstop : stopF 0 = true) :
    countChecks (passLoop lock readF matrix scanrow ridx rows).1 = 0
    ∧ scan lock stopF readF (fuel + 1)
        = (primingEvs ++ [Ev.stopCheck true], Outcome.ok) := by
  constructor
  · exact countChecks_passLoop lock readF rows matrix scanrow ridx
  · simp [scan, scanLoop, hstop]

/-- Witness for C6 amended: the always-true stop schedule. -/
theorem stop_checked_once_per_pass_witness :
    (fun _ : Nat => true) 0 = true
    ∧ (countChecks (passLoop Lock.Unlocked (fun _ => some 0xFF) matrixInit 0 0 ROWS).1 = 0
      ∧ scan Lock.Unlocked (fun _ => true) (fun _ => some 0xFF) 1
          = (primingEvs ++ [Ev.stopCheck true], Outcome.ok)) :=
  ⟨rfl,
   stop_checked_once_per_pass Lock.Unlocked (fun _ => true) (fun _ => some 0xFF)
     matrixInit 0 0 0 ROWS rfl⟩

/-- C7: every `scan` call starts from fresh state: its trace is the
priming sequence followed by the loop run from the all-false matrix
(the matrix is a local of `scan`, so nothing survives across calls),
and every entry of that initial matrix is false.  Behaviourally: with a
script that holds key `(1,1,2)` (symbol `6`) pressed, a `scan` call —
so in particular one made after any earlier aborted call — fires a
fresh press for it, whereas the same loop started from a stale matrix
with that key already latched fires none. -/
theorem scan_fresh_state :
    (∀ (lock : Lock) (stopF : Nat → Bool) (readF : Nat → Option Nat) (fuel : Nat),
        scan lock stopF readF fuel
          = (primingEvs ++ (scanLoop lock stopF readF fuel matrixInit 0 0).1,
             (scanLoop lock stopF readF fuel matrixInit 0 0).2))
    ∧ (matrixInit.all fun padRows => padRows.all fun rowCols =>
        rowCols.all fun b => !b) = true
    ∧ (scan Lock.Unlocked (fun _ => false) (fun _ => some 0xFD) 1).1.count
        (Ev.press (Symbol.mk 54)) = 1
    ∧ (scanLoop Lock.Unlocked (fun _ => false) (fun _ => some 0xFD) 1
          (matrixInit.set 1
            ((List.replicate 4 (List.replicate 3 false)).set 1 [false, false, true]))
          0 0).1.count (Ev.press (Symbol.mk 54)) = 0 := by
  refine ⟨fun lock stopF readF fuel => rfl, by decide, by decide, by decide⟩

/-- C8 counterexample: the claim swaps the two ports.  In the main loop
port B is the drive port (`DirB`/`OutB` select the active line) and
port A is the read port (`InpA` is read), but the priming sequence sets
the drive port B to all-INPUT (`DirB <- 0xFF`, its first write), drives
the READ port A output-high (`DirA <- 0x00`, `OutA <- 0xFF`), and after
the 10 ms hold re-configures the READ port A as input with pull-ups
(`DirA <- 0xFF`, `PupA <- 0xFF`).  No priming write configures the
drive port B as all-output (`DirB <- 0x00`) and no write enables
pull-ups on port B (`PupB`), contradicting the claimed steps "configure
the drive port as all-output and drive it fully high" and "switch the
drive port to all-input with pull-ups enabled". -/
theorem priming_ports_swapped_cex :
    (scan Lock.Unlocked (fun _ => true) (fun _ => some 0xFF) 1).1.take 6
      = [Ev.wreg Reg.DirB.addr 0xFF, Ev.wreg Reg.DirA.addr 0x00,
         Ev.wreg Reg.OutA.addr 0xFF, Ev.sleepMs 10,
         Ev.wreg Reg.DirA.addr 0xFF, Ev.wreg Reg.PupA.addr 0xFF]
    ∧ (scan Lock.Unlocked (fun _ => true) (fun _ => some 0xFF) 1).1.count
        (Ev.wreg Reg.DirB.addr 0x00) = 0
    ∧ (scan Lock.Unlocked (fun _ => true) (fun _ => some 0xFF) 1).1.count
        (Ev.wreg Reg.PupB.addr 0xFF) = 0 := by
  refine ⟨by decide, by decide, by decide⟩

/-- C8 amended: the priming sequence executed once per `scan` call
before the main loop performs, in order: configure the DRIVE port (B)
as all-input (high impedance); configure the READ port (A) as
all-output and drive it fully high; hold 10 ms; then switch the READ
port (A) back to all-input with pull-ups enabled on its lines (the
column-sensing lines).  This holds for every `scan` call whatever the
lock state, stop schedule, read script and fuel. -/
theorem priming_sequence_actual
    (lock : Lock) (stopF : Nat → Bool) (readF : Nat → Option Nat) (fuel : Nat) :
    (scan lock stopF readF fuel).1.take 6
      = [Ev.wreg Reg.DirB.addr 0xFF, Ev.wreg Reg.DirA.addr 0x00,
         Ev.wreg Reg.OutA.addr 0xFF, Ev.sleepMs 10,
         Ev.wreg Reg.DirA.addr 0xFF, Ev.wreg Reg.PupA.addr 0xFF] :=
  rfl

/-- C9: `keypad_get_lock` on a handle whose driver was never
initialized (`driver == None`) returns `Lock::Locked`, whose C
discriminant is 0. -/
theorem get_lock_uninitialized (kp : KeypadHandle) (h : kp.driver = none) :
    keypad_get_lock kp = Lock.Locked ∧ Lock.Locked.code = 0 := by
  refine ⟨?_, rfl⟩
  simp [keypad_get_lock, h]

/-- Witness for C9: the freshly created handle (`keypad_new` makes
`driver: None`). -/
theorem get_lock_uninitialized_witness :
    (KeypadHandle.mk none).driver = none
    ∧ (keypad_get_lock (KeypadHandle.mk none) = Lock.Locked
      ∧ Lock.Locked.code = 0) :=
  ⟨rfl, get_lock_uninitialized (KeypadHandle.mk none) rfl⟩

/-- C10: whenever `Keypad::open` succeeds, the returned driver's lock
state is `Unlocked` (C discriminant 1), so `get_lock` on a freshly
opened driver — before any `set_lock` — returns `Unlocked`, not
`Locked`. -/
theorem open_starts_unlocked (devOk : Bool) (writeOk : Nat → Bool)
    (kp : Keypad) (tr : List (Nat × Nat))
    (h : Keypad.open' devOk writeOk = Except.ok (kp, tr)) :
    Keypad.get_lock kp = Lock.Unlocked ∧ Lock.Unlocked.code = 1 := by
  refine ⟨?_, rfl⟩
  simp only [Keypad.open'] at h
  split_ifs at h
  rw [Except.ok.injEq, Prod.mk.injEq] at h
  rw [← h.1]
  rfl

/-- Witness for C10: a fully successful open. -/
theorem open_starts_unlocked_witness :
    Keypad.open' true (fun _ => true)
      = Except.ok (Keypad.mk Lock.Unlocked false, openInitWrites)
    ∧ (Keypad.get_lock (Keypad.mk Lock.Unlocked false) = Lock.Unlocked
      ∧ Lock.Unlocked.code = 1) :=
  ⟨rfl,
   open_starts_unlocked true (fun _ => true) (Keypad.mk Lock.Unlocked false)
     openInitWrites rfl⟩

end Libkeypad
